import Mathlib

/-
Shallow embedding of `src/app.py`, the single-file Streamlit frontend of the
Lab Intelligence Chatbot.  The file is a chat dashboard: it POSTs the
question to a backend at {base_url}/ask, probes GET {base_url}/health, keeps
two per-session lists (`st.session_state.messages`, `st.session_state.query_history`)
and renders answers, SQL, tables and banners.

Modelling conventions:
  * Network effects are inputs: the outcome of the one POST issued by
    `call_api` (timeout / RequestException / completed HTTP response) and of
    the GET issued by `check_api_health` are passed in as values of
    `NetOutcome` / `HealthOutcome`.
  * Streamlit rendering calls (st.error, st.success, st.info, st.warning,
    st.markdown inside a chat bubble, st.code, st.metric, st.dataframe,
    st.download_button) and issued HTTP requests are recorded as an ordered
    `List Event` trace.
  * The decoded JSON response body is `JsonBody`, a record of optional fields
    (the fields the code reads via result.get) plus `otherFields`, the names
    of any keys the code never reads; Python dict truthiness (an empty dict
    is falsy at line 197 `if result:`) is `jsonIsEmpty`.
  * datetime.now().isoformat() is nondeterministic and is passed in as the
    string `now`.
  * Elided, since no claim touches them and they render but never change
    session state: the plotly auto-chart generation (lines 147-175, 248-260),
    pandas CSV serialization of the download (line 240), the re-rendering
    loop over stored history (lines 118-175), the quick-query buttons and
    st.rerun plumbing, and the exact str(e) text of an HTTPError raised by
    raise_for_status (a property of the requests library, abstracted by
    `httpErrorText`).
-/

namespace LabChat

/-- One row object of the `data` array of a backend response: JSON field
names paired with their (printed) values. -/
abbrev Row := List (String × String)

/-- The JSON-decoded body of a backend response.  Each field the code reads
with `result.get(...)` is an `Option`; `otherFields` lists the names of any
further keys, so that Python dict emptiness is representable. -/
structure JsonBody where
  success : Option Bool := none
  answer : Option String := none
  sql_query : Option String := none
  data : Option (List Row) := none
  execution_time_ms : Option Nat := none
  row_count : Option Nat := none
  error : Option String := none
  otherFields : List String := []
  deriving DecidableEq

/-- Python truthiness of `result.get("success")`: a missing key is `None`
(falsy), a present boolean is itself. -/
def truthy : Option Bool → Bool
  | none => false
  | some b => b

/-- Python truthiness of the decoded dict itself: an empty dict is falsy
(line 197 `if result:`). -/
def jsonIsEmpty (b : JsonBody) : Bool :=
  b.success.isNone && b.answer.isNone && b.sql_query.isNone && b.data.isNone &&
    b.execution_time_ms.isNone && b.row_count.isNone && b.error.isNone &&
    b.otherFields.isEmpty

/-- One entry of `st.session_state.messages`.  The user entry (line 186) has
only role and content; the assistant entry (lines 203-210) also carries the
optional fields, so those are `Option`s defaulting to `none`. -/
structure Message where
  role : String
  content : String
  sql_query : Option String := none
  data : Option (List Row) := none
  execution_time_ms : Option Nat := none
  row_count : Option Nat := none
  deriving DecidableEq

/-- One entry of `st.session_state.query_history` (lines 212-216). -/
structure HistoryEntry where
  question : String
  sql : String
  timestamp : String
  deriving DecidableEq

/-- The per-session state: the two lists initialised empty at lines 47-50. -/
structure SessionState where
  messages : List Message
  query_history : List HistoryEntry
  deriving DecidableEq

/-- Observable effects of a run: HTTP requests issued and Streamlit widgets
rendered.  `warningBanner` is `st.warning`, which this app never calls; it is
in the alphabet so that its absence is expressible. -/
inductive Event where
  | httpPost (url : String) (question : String) (timeout : Nat)
  | httpGet (url : String) (timeout : Nat)
  | errorBanner (text : String)
  | successBanner (text : String)
  | infoBanner (text : String)
  | warningBanner (text : String)
  | chatMarkdown (role : String) (text : String)
  | sqlCode (text : String)
  | metric (label : String) (value : Nat)
  | dataTable (rows : List Row)
  | downloadButton (rows : List Row)
  deriving DecidableEq

/-- Outcome of the POST inside `call_api`: it times out, raises some other
`requests.exceptions.RequestException`, or completes with a status code and a
decoded JSON body. -/
inductive NetOutcome where
  | timeout
  | reqError (msg : String)
  | response (status : Nat) (body : JsonBody)
  deriving DecidableEq

/-- Outcome of the GET inside `check_api_health`: any exception, or a
completed response with a status code. -/
inductive HealthOutcome where
  | exn
  | response (status : Nat)
  deriving DecidableEq

/-- The f-string of line 64. -/
def timeoutMessage (apiTimeout : Nat) : String :=
  "⏱️ API Timeout: Request took longer than " ++ toString apiTimeout ++
    " seconds. Try increasing the timeout in the sidebar."

/-- The f-string of line 67: `API Error: ` followed by str(e). -/
def apiErrorMessage (e : String) : String :=
  "API Error: " ++ e

/-- Abstraction of str(HTTPError) produced by `response.raise_for_status()`
for an error status; the exact phrasing belongs to the requests library,
not to this repository, so only its status and url are kept. -/
def httpErrorText (status : Nat) (url : String) : String :=
  toString status ++ " Error for url: " ++ url

/-- `response.raise_for_status()` raises `requests.exceptions.HTTPError`
(a `RequestException`) exactly for 4xx and 5xx status codes. -/
def raisesForStatus (status : Nat) : Bool :=
  decide (400 ≤ status) && decide (status < 600)

/-- Lines 53-68, `call_api(question)`: POST {base_url}/ask with JSON body
containing the question and timeout API_TIMEOUT; on success decode and return
the JSON body; a timeout or any other RequestException (including the
HTTPError from raise_for_status) renders an error banner and returns None. -/
def call_api (baseUrl : String) (apiTimeout : Nat) (question : String)
    (net : NetOutcome) : Option JsonBody × List Event :=
  let req := Event.httpPost (baseUrl ++ "/ask") question apiTimeout
  match net with
  | .timeout =>
      (none, [req, Event.errorBanner (timeoutMessage apiTimeout)])
  | .reqError e =>
      (none, [req, Event.errorBanner (apiErrorMessage e)])
  | .response status body =>
      if raisesForStatus status then
        (none, [req, Event.errorBanner (apiErrorMessage (httpErrorText status (baseUrl ++ "/ask")))])
      else
        (some body, [req])

/-- Lines 71-77, `check_api_health()`: GET {base_url}/health with a fixed
timeout of 5 seconds; True iff the status code equals 200, False on any
exception (bare except). -/
def check_api_health (baseUrl : String) (h : HealthOutcome) : Bool × List Event :=
  let req := Event.httpGet (baseUrl ++ "/health") 5
  match h with
  | .exn => (false, [req])
  | .response status => (decide (status = 200), [req])

/-- Lines 89-93, the sidebar health section: a success banner when
`check_api_health()` is True, otherwise an error banner plus an info line. -/
def sidebarHealth (baseUrl : String) (h : HealthOutcome) : List Event :=
  let (healthy, evs) := check_api_health baseUrl h
  evs ++
    (if healthy then
      [Event.successBanner "✅ API Connected"]
    else
      [Event.errorBanner "❌ API Not Available",
       Event.infoBanner ("Please ensure the backend is running at " ++ baseUrl)])

/-- Lines 113-116, the Clear Chat History button: both session lists are
reset to empty. -/
def clearChatHistory (_st : SessionState) : SessionState :=
  { messages := [], query_history := [] }

/-- The dict appended at line 186 for the submitted question. -/
def userMessage (question : String) : Message :=
  { role := "user", content := question }

/-- The `message_data` dict of lines 203-210, appended to the message list
at line 211. -/
def assistantMessage (body : JsonBody) : Message :=
  { role := "assistant"
    content := body.answer.getD ""
    sql_query := some (body.sql_query.getD "")
    data := some (body.data.getD [])
    execution_time_ms := some (body.execution_time_ms.getD 0)
    row_count := some (body.row_count.getD 0) }

/-- The dict appended to `query_history` at lines 212-216. -/
def historyEntry (question : String) (body : JsonBody) (now : String) : HistoryEntry :=
  { question := question, sql := body.sql_query.getD "", timestamp := now }

/-- `len(df.columns)` of `pd.DataFrame(data)`: the union, in first-seen
order, of the keys of the row objects. -/
def columnsOf (rows : List Row) : List String :=
  rows.foldl (fun acc r => acc ++ (r.map Prod.fst).filter (fun k => !acc.contains k)) []

/-- Lines 198-262, the `success` branch of the question handler: render the
answer (defaulting to "Query executed successfully."), append the assistant
message and the history record, render the SQL expander, then either the
metrics / table / download section or the no-data info line. -/
def handleSuccess (now question : String) (body : JsonBody) (st1 : SessionState) :
    SessionState × List Event :=
  let shown := body.answer.getD "Query executed successfully."
  let st2 : SessionState :=
    { messages := st1.messages ++ [assistantMessage body]
      query_history := st1.query_history ++ [historyEntry question body now] }
  let data := body.data.getD []
  let dataEvs :=
    if data.length > 0 then
      [Event.metric "Rows Returned" data.length,
       Event.metric "Columns" (columnsOf data).length,
       Event.metric "Execution Time" (body.execution_time_ms.getD 0),
       Event.dataTable data,
       Event.downloadButton data]
    else
      [Event.infoBanner "No data returned from query."]
  (st2, [Event.chatMarkdown "assistant" shown,
         Event.sqlCode (body.sql_query.getD "")] ++ dataEvs)

/-- The banner of line 266, also reached when the decoded body is an empty
dict (falsy at line 197). -/
def connectFailureBanner : Event :=
  Event.errorBanner "Failed to connect to API. Please check your configuration."

/-- Lines 184-268, the module-level question handler run for a submitted
question: append the user message (line 186, before any network call),
render it, call `call_api`, then branch on the truthiness of the decoded
body and of its `success` flag. -/
def handleQuestion (baseUrl : String) (apiTimeout : Nat) (now : String)
    (question : String) (net : NetOutcome) (st : SessionState) :
    SessionState × List Event :=
  let st1 : SessionState := { st with messages := st.messages ++ [userMessage question] }
  let userEvs := [Event.chatMarkdown "user" question]
  let (result, apiEvs) := call_api baseUrl apiTimeout question net
  match result with
  | some body =>
      if jsonIsEmpty body then
        (st1, userEvs ++ apiEvs ++ [connectFailureBanner])
      else if truthy body.success then
        let (st2, succEvs) := handleSuccess now question body st1
        (st2, userEvs ++ apiEvs ++ succEvs)
      else
        (st1, userEvs ++ apiEvs ++
          [Event.errorBanner ("Query failed: " ++ body.error.getD "Unknown error")])
  | none =>
      (st1, userEvs ++ apiEvs ++ [connectFailureBanner])

/-- The session-level operations that touch or could touch the two session
lists: the Clear Chat History button, a submitted question (typed or via a
quick-query button), and the sidebar health check. -/
inductive Op where
  | clearChat
  | submitQuestion (question now : String) (net : NetOutcome)
  | healthCheck (h : HealthOutcome)
  deriving DecidableEq

/-- One operation applied to the session state, with its event trace. -/
def stepOp (baseUrl : String) (apiTimeout : Nat) (op : Op) (st : SessionState) :
    SessionState × List Event :=
  match op with
  | .clearChat => (clearChatHistory st, [])
  | .submitQuestion q now net => handleQuestion baseUrl apiTimeout now q net st
  | .healthCheck h => (st, sidebarHealth baseUrl h)

/-- Lines 38-44: API_TIMEOUT is the value of a sidebar slider with
min_value 10 and max_value 300; whatever is selected (the env-derived
default or a user drag), the slider only ever yields values inside
[min_value, max_value]. -/
def sliderValue (minValue maxValue selected : Nat) : Nat :=
  max minValue (min maxValue selected)

/-- The configured API timeout as a function of the slider selection. -/
def API_TIMEOUT (selected : Nat) : Nat :=
  sliderValue 10 300 selected

/-- The POST requests occurring in an event trace. -/
def Event.isPost : Event → Bool
  | .httpPost _ _ _ => true
  | _ => false

/-- The texts of the warning banners in a trace (this app never emits one). -/
def warningTexts (evs : List Event) : List String :=
  evs.filterMap fun e =>
    match e with
    | .warningBanner s => some s
    | _ => none

/-- The texts of the error banners in a trace. -/
def errorTexts (evs : List Event) : List String :=
  evs.filterMap fun e =>
    match e with
    | .errorBanner s => some s
    | _ => none

/-- Whether `call_api` hits an exception handler for a given network
outcome: a timeout, another RequestException, or an error status that makes
raise_for_status raise. -/
def netRaises : NetOutcome → Bool
  | .timeout => true
  | .reqError _ => true
  | .response status _ => raisesForStatus status

/-- Two strings whose underlying character lists start with different
characters are different strings. -/
theorem string_head_ne {s t : String} {a b : Char} (hs : s.data.head? = some a)
    (ht : t.data.head? = some b) (hab : a ≠ b) : s ≠ t := by
  intro h
  subst h
  rw [hs] at ht
  exact hab (Option.some.inj ht)

/-- C4: `call_api` returns None exactly when the POST raises — a timeout,
another RequestException, or an error status that makes raise_for_status
raise an HTTPError — each case rendering an error banner, with the timeout
banner never equal to any other request-error banner; for a non-raising
response it returns the decoded JSON body unmodified. -/
theorem C4_call_api_none_iff_raises (baseUrl : String) (apiTimeout : Nat)
    (question : String) (net : NetOutcome) :
    ((call_api baseUrl apiTimeout question net).fst = none ↔ netRaises net = true)
    ∧ (∀ status body, raisesForStatus status = false →
        (call_api baseUrl apiTimeout question (NetOutcome.response status body)).fst = some body)
    ∧ Event.errorBanner (timeoutMessage apiTimeout) ∈
        (call_api baseUrl apiTimeout question NetOutcome.timeout).snd
    ∧ (∀ m, Event.errorBanner (apiErrorMessage m) ∈
        (call_api baseUrl apiTimeout question (NetOutcome.reqError m)).snd)
    ∧ (∀ m, timeoutMessage apiTimeout ≠ apiErrorMessage m) := by
  refine ⟨?_, ?_, ?_, ?_, ?_⟩
  · cases net with
    | timeout => simp [call_api, netRaises]
    | reqError m => simp [call_api, netRaises]
    | response s b =>
      simp only [call_api, netRaises]
      split <;> simp_all
  · intro s b hok
    simp [call_api, hok]
  · simp [call_api]
  · intro m
    simp [call_api]
  · intro m
    exact string_head_ne rfl rfl (by decide)

/-- Witness for C4 at concrete inputs: a timeout yields None, a clean 200
response passes its body through, and the two banner texts differ. -/
theorem C4_call_api_none_iff_raises_witness :
    (call_api "api" 60 "q" NetOutcome.timeout).fst = none
    ∧ (call_api "api" 60 "q" (NetOutcome.response 200 {})).fst = some {}
    ∧ timeoutMessage 60 ≠ apiErrorMessage "boom" := by
  refine ⟨?_, ?_, ?_⟩
  · exact (C4_call_api_none_iff_raises "api" 60 "q" NetOutcome.timeout).1.mpr rfl
  · exact (C4_call_api_none_iff_raises "api" 60 "q" NetOutcome.timeout).2.1 200 {} rfl
  · exact (C4_call_api_none_iff_raises "api" 60 "q" NetOutcome.timeout).2.2.2.2 "boom"

/-- C5: `check_api_health` returns True iff the GET completed with status
code 200, and returns False when the request raised any exception. -/
theorem C5_check_api_health_true_iff_200 (baseUrl : String) (h : HealthOutcome) :
    ((check_api_health baseUrl h).fst = true ↔ h = HealthOutcome.response 200)
    ∧ (check_api_health baseUrl HealthOutcome.exn).fst = false := by
  refine ⟨?_, rfl⟩
  cases h with
  | exn => simp [check_api_health]
  | response s => simp [check_api_health]

/-- Witness for C5: a 200 response makes the health check return True, a
404 or an exception make it return False. -/
theorem C5_check_api_health_true_iff_200_witness :
    (check_api_health "api" (HealthOutcome.response 200)).fst = true
    ∧ (check_api_health "api" (HealthOutcome.response 404)).fst ≠ true
    ∧ (check_api_health "api" HealthOutcome.exn).fst = false := by
  refine ⟨?_, ?_, ?_⟩
  · exact (C5_check_api_health_true_iff_200 "api" (HealthOutcome.response 200)).1.mpr rfl
  · intro hcontra
    exact absurd ((C5_check_api_health_true_iff_200 "api" (HealthOutcome.response 404)).1.mp hcontra)
      (by decide)
  · exact (C5_check_api_health_true_iff_200 "api" HealthOutcome.exn).2

/-- C6 counterexample: when the health check fails, the sidebar shows an
error banner (st.error at line 92) and no warning banner at all, so the UI
does not degrade to a warning banner. -/
theorem C6_counterexample :
    (check_api_health "api" HealthOutcome.exn).fst = false
    ∧ Event.errorBanner "❌ API Not Available" ∈ sidebarHealth "api" HealthOutcome.exn
    ∧ warningTexts (sidebarHealth "api" HealthOutcome.exn) = [] := by
  refine ⟨rfl, ?_, rfl⟩
  simp [sidebarHealth, check_api_health]

/-- C6 (amended): whenever the health check fails, the UI degrades to an
error banner plus an info line, and never shows a warning banner. -/
theorem C6_health_failure_shows_error_banner (baseUrl : String) (h : HealthOutcome)
    (hfail : (check_api_health baseUrl h).fst = false) :
    Event.errorBanner "❌ API Not Available" ∈ sidebarHealth baseUrl h
    ∧ Event.infoBanner ("Please ensure the backend is running at " ++ baseUrl) ∈
        sidebarHealth baseUrl h
    ∧ warningTexts (sidebarHealth baseUrl h) = [] := by
  cases h with
  | exn => simp [sidebarHealth, check_api_health, warningTexts]
  | response s =>
    simp only [check_api_health] at hfail
    simp [sidebarHealth, check_api_health, hfail, warningTexts]

/-- Witness for the amended C6 at a concrete failing outcome. -/
theorem C6_health_failure_shows_error_banner_witness :
    Event.errorBanner "❌ API Not Available" ∈ sidebarHealth "api" HealthOutcome.exn
    ∧ Event.infoBanner ("Please ensure the backend is running at " ++ "api") ∈
        sidebarHealth "api" HealthOutcome.exn
    ∧ warningTexts (sidebarHealth "api" HealthOutcome.exn) = [] :=
  C6_health_failure_shows_error_banner "api" HealthOutcome.exn rfl

/-- C1 counterexample: on a timeout the error banner does appear, but the
session message list does gain an entry — the user message appended at line
186 before the network call — so "no message is appended" fails. -/
theorem C1_counterexample :
    Event.errorBanner (timeoutMessage 60) ∈
      (handleQuestion "api" 60 "t0" "hello" NetOutcome.timeout
        { messages := [], query_history := [] }).snd
    ∧ (handleQuestion "api" 60 "t0" "hello" NetOutcome.timeout
        { messages := [], query_history := [] }).fst.messages ≠ [] := by
  constructor
  · simp [handleQuestion, call_api]
  · simp [handleQuestion, call_api]

/-- C1 (amended): on a timeout, error banners appear (the timeout banner,
then the connection-failure banner) and no assistant message is appended:
the session message list gains exactly the user message, already appended
before the call, and the query history is unchanged. -/
theorem C1_timeout_appends_only_user_message (baseUrl : String) (apiTimeout : Nat)
    (now question : String) (st : SessionState) :
    (handleQuestion baseUrl apiTimeout now question NetOutcome.timeout st).fst.messages
      = st.messages ++ [userMessage question]
    ∧ (handleQuestion baseUrl apiTimeout now question NetOutcome.timeout st).fst.query_history
      = st.query_history
    ∧ errorTexts (handleQuestion baseUrl apiTimeout now question NetOutcome.timeout st).snd
      = [timeoutMessage apiTimeout,
         "Failed to connect to API. Please check your configuration."] := by
  refine ⟨rfl, rfl, ?_⟩
  simp [handleQuestion, call_api, errorTexts, connectFailureBanner]

/-- C2 counterexample: a `success: true` response makes the session message
list gain two entries (the user question and the assistant answer), not
exactly one. -/
theorem C2_counterexample :
    (handleQuestion "api" 60 "t0" "q2"
        (NetOutcome.response 200 { success := some true, answer := some "42" })
        { messages := [], query_history := [] }).fst.messages.length = 2
    ∧ (handleQuestion "api" 60 "t0" "q2"
        (NetOutcome.response 200 { success := some true, answer := some "42" })
        { messages := [], query_history := [] }).fst.messages.length ≠ 1 := by
  constructor
  · rfl
  · decide

/-- C2 (amended): for a non-raising response whose `success` flag is truthy,
the session message list gains exactly two entries — the user message and
one assistant entry whose content equals the `answer` field of the response
(defaulting to the empty string when absent). -/
theorem C2_success_appends_user_and_assistant (baseUrl : String) (apiTimeout : Nat)
    (now question : String) (status : Nat) (body : JsonBody) (st : SessionState)
    (hok : raisesForStatus status = false) (hsucc : truthy body.success = true) :
    (handleQuestion baseUrl apiTimeout now question (NetOutcome.response status body) st).fst.messages
      = st.messages ++ [userMessage question, assistantMessage body]
    ∧ (assistantMessage body).content = body.answer.getD "" := by
  have hne : jsonIsEmpty body = false := by
    cases hb : body.success with
    | none => rw [hb] at hsucc; simp [truthy] at hsucc
    | some b => simp [jsonIsEmpty, hb]
  refine ⟨?_, rfl⟩
  simp [handleQuestion, call_api, hok, hne, hsucc, handleSuccess]

/-- Witness for the amended C2 at a concrete response. -/
theorem C2_success_appends_user_and_assistant_witness :
    (handleQuestion "api" 60 "t0" "q2"
        (NetOutcome.response 200 { success := some true, answer := some "42" })
        { messages := [], query_history := [] }).fst.messages
      = [] ++ [userMessage "q2",
          assistantMessage { success := some true, answer := some "42" }]
    ∧ (assistantMessage { success := some true, answer := some "42" }).content
      = ({ success := some true, answer := some "42" } : JsonBody).answer.getD "" :=
  C2_success_appends_user_and_assistant "api" 60 "t0" "q2" 200
    { success := some true, answer := some "42" }
    { messages := [], query_history := [] } rfl rfl

/-- C3 counterexample: for a `success: false` body with error "boom" the
only error banner rendered reads "Query failed: boom", so the displayed
error text does not equal the error field itself. -/
theorem C3_counterexample :
    Event.errorBanner "Query failed: boom" ∈
      (handleQuestion "api" 60 "t0" "q3"
        (NetOutcome.response 200 { success := some false, error := some "boom" })
        { messages := [], query_history := [] }).snd
    ∧ Event.errorBanner "boom" ∉
      (handleQuestion "api" 60 "t0" "q3"
        (NetOutcome.response 200 { success := some false, error := some "boom" })
        { messages := [], query_history := [] }).snd := by
  constructor
  · decide
  · decide

/-- C3 (amended): for a non-raising, non-empty body whose `success` flag is
falsy, the displayed error text is exactly the fixed prefix "Query failed: "
followed by the error field verbatim (or "Unknown error" when absent). -/
theorem C3_failure_error_is_prefixed_verbatim (baseUrl : String) (apiTimeout : Nat)
    (now question : String) (status : Nat) (body : JsonBody) (st : SessionState)
    (hok : raisesForStatus status = false) (hne : jsonIsEmpty body = false)
    (hfail : truthy body.success = false) :
    errorTexts (handleQuestion baseUrl apiTimeout now question
        (NetOutcome.response status body) st).snd
      = ["Query failed: " ++ body.error.getD "Unknown error"] := by
  simp [handleQuestion, call_api, hok, hne, hfail, errorTexts]

/-- Witness for the amended C3 at a concrete failing response. -/
theorem C3_failure_error_is_prefixed_verbatim_witness :
    errorTexts (handleQuestion "api" 60 "t0" "q3"
        (NetOutcome.response 200 { success := some false, error := some "boom" })
        { messages := [], query_history := [] }).snd
      = ["Query failed: " ++
          ({ success := some false, error := some "boom" } : JsonBody).error.getD "Unknown error"] :=
  C3_failure_error_is_prefixed_verbatim "api" 60 "t0" "q3" 200
    { success := some false, error := some "boom" }
    { messages := [], query_history := [] } rfl rfl rfl

/-- C7: every session-level operation either appends to the two session
lists (possibly nothing) or is the Clear Chat History action, the only one
that removes entries, which resets both lists to empty. -/
theorem C7_append_only_except_clear (baseUrl : String) (apiTimeout : Nat)
    (op : Op) (st : SessionState) :
    (op = Op.clearChat
      ∧ (stepOp baseUrl apiTimeout op st).fst = { messages := [], query_history := [] })
    ∨ (∃ ms hs, (stepOp baseUrl apiTimeout op st).fst.messages = st.messages ++ ms
        ∧ (stepOp baseUrl apiTimeout op st).fst.query_history = st.query_history ++ hs) := by
  cases op with
  | clearChat => exact Or.inl ⟨rfl, rfl⟩
  | healthCheck h => exact Or.inr ⟨[], [], by simp [stepOp], by simp [stepOp]⟩
  | submitQuestion q now net =>
    refine Or.inr ?_
    cases net with
    | timeout =>
      exact ⟨[userMessage q], [], by simp [stepOp, handleQuestion, call_api],
        by simp [stepOp, handleQuestion, call_api]⟩
    | reqError m =>
      exact ⟨[userMessage q], [], by simp [stepOp, handleQuestion, call_api],
        by simp [stepOp, handleQuestion, call_api]⟩
    | response s b =>
      cases hraise : raisesForStatus s with
      | true =>
        exact ⟨[userMessage q], [],
          by simp [stepOp, handleQuestion, call_api, hraise],
          by simp [stepOp, handleQuestion, call_api, hraise]⟩
      | false =>
        cases hempty : jsonIsEmpty b with
        | true =>
          exact ⟨[userMessage q], [],
            by simp [stepOp, handleQuestion, call_api, hraise, hempty],
            by simp [stepOp, handleQuestion, call_api, hraise, hempty]⟩
        | false =>
          cases hsucc : truthy b.success with
          | true =>
            exact ⟨[userMessage q, assistantMessage b], [historyEntry q b now],
              by simp [stepOp, handleQuestion, call_api, hraise, hempty, hsucc, handleSuccess],
              by simp [stepOp, handleQuestion, call_api, hraise, hempty, hsucc, handleSuccess]⟩
          | false =>
            exact ⟨[userMessage q], [],
              by simp [stepOp, handleQuestion, call_api, hraise, hempty, hsucc],
              by simp [stepOp, handleQuestion, call_api, hraise, hempty, hsucc]⟩

/-- C8: every run of the question handler issues exactly one HTTP POST, to
{base_url}/ask with the submitted question as JSON body and the configured
timeout; no branch retries, so a failed request is never retried. -/
theorem C8_exactly_one_post (baseUrl : String) (apiTimeout : Nat)
    (now question : String) (net : NetOutcome) (st : SessionState) :
    (handleQuestion baseUrl apiTimeout now question net st).snd.filter Event.isPost
      = [Event.httpPost (baseUrl ++ "/ask") question apiTimeout] := by
  cases net with
  | timeout => simp [handleQuestion, call_api, Event.isPost, connectFailureBanner]
  | reqError m => simp [handleQuestion, call_api, Event.isPost, connectFailureBanner]
  | response s b =>
    cases hraise : raisesForStatus s with
    | true =>
      simp [handleQuestion, call_api, hraise, Event.isPost, connectFailureBanner]
    | false =>
      cases hempty : jsonIsEmpty b with
      | true =>
        simp [handleQuestion, call_api, hraise, hempty, Event.isPost, connectFailureBanner]
      | false =>
        cases hsucc : truthy b.success with
        | true =>
          by_cases hd : (b.data.getD []).length > 0
          · simp [handleQuestion, call_api, hraise, hempty, hsucc, handleSuccess, hd,
              Event.isPost]
          · simp [handleQuestion, call_api, hraise, hempty, hsucc, handleSuccess, hd,
              Event.isPost]
        | false =>
          simp [handleQuestion, call_api, hraise, hempty, hsucc, Event.isPost]

/-- C9: when a truthy-`success` response has no `answer` field, the rendered
assistant text is the default "Query executed successfully." while the
content stored in the session message list for that turn is the empty
string, so the stored message diverges from what was rendered. -/
theorem C9_missing_answer_renders_default_stores_empty (baseUrl : String)
    (apiTimeout : Nat) (now question : String) (body : JsonBody) (st : SessionState)
    (hans : body.answer = none) (hsucc : truthy body.success = true) :
    Event.chatMarkdown "assistant" "Query executed successfully." ∈
      (handleQuestion baseUrl apiTimeout now question (NetOutcome.response 200 body) st).snd
    ∧ (handleQuestion baseUrl apiTimeout now question (NetOutcome.response 200 body) st).fst.messages
      = st.messages ++ [userMessage question, assistantMessage body]
    ∧ (assistantMessage body).content = ""
    ∧ ("Query executed successfully." : String) ≠ "" := by
  have hne : jsonIsEmpty body = false := by
    cases hb : body.success with
    | none => rw [hb] at hsucc; simp [truthy] at hsucc
    | some x => simp [jsonIsEmpty, hb]
  have hok : raisesForStatus 200 = false := rfl
  refine ⟨?_, ?_, ?_, by decide⟩
  · simp [handleQuestion, call_api, hok, hne, hsucc, handleSuccess, hans]
  · simp [handleQuestion, call_api, hok, hne, hsucc, handleSuccess]
  · simp [assistantMessage, hans]

/-- Witness for C9 at a concrete body with `success: true` and no answer. -/
theorem C9_missing_answer_renders_default_stores_empty_witness :
    Event.chatMarkdown "assistant" "Query executed successfully." ∈
      (handleQuestion "api" 60 "t0" "q9" (NetOutcome.response 200 { success := some true })
        { messages := [], query_history := [] }).snd
    ∧ (handleQuestion "api" 60 "t0" "q9" (NetOutcome.response 200 { success := some true })
        { messages := [], query_history := [] }).fst.messages
      = [] ++ [userMessage "q9", assistantMessage { success := some true }]
    ∧ (assistantMessage { success := some true }).content = ""
    ∧ ("Query executed successfully." : String) ≠ "" :=
  C9_missing_answer_renders_default_stores_empty "api" 60 "t0" "q9"
    { success := some true } { messages := [], query_history := [] } rfl rfl

/-- C10: the POST inside `call_api` always uses the configured API_TIMEOUT,
which the sidebar slider keeps between 10 and 300 inclusive, while the
health probe always uses a fixed 5-second timeout. -/
theorem C10_timeout_configuration (selected : Nat) (baseUrl question : String)
    (net : NetOutcome) (h : HealthOutcome) :
    10 ≤ API_TIMEOUT selected
    ∧ API_TIMEOUT selected ≤ 300
    ∧ (∃ rest, (call_api baseUrl (API_TIMEOUT selected) question net).snd
        = Event.httpPost (baseUrl ++ "/ask") question (API_TIMEOUT selected) :: rest)
    ∧ (∃ rest, (check_api_health baseUrl h).snd
        = Event.httpGet (baseUrl ++ "/health") 5 :: rest) := by
  refine ⟨?_, ?_, ?_, ?_⟩
  · unfold API_TIMEOUT sliderValue
    omega
  · unfold API_TIMEOUT sliderValue
    omega
  · cases net with
    | timeout => exact ⟨_, rfl⟩
    | reqError m => exact ⟨_, rfl⟩
    | response s b =>
      simp only [call_api]
      split
      · exact ⟨_, rfl⟩
      · exact ⟨_, rfl⟩
  · cases h with
    | exn => exact ⟨_, rfl⟩
    | response s => exact ⟨_, rfl⟩

end LabChat
